import Mathlib

/-!
Verification of the WLF SDN XML parser.

This file is a shallow embedding of the extraction and flattening logic of
consolidate_parser_new_address_test_180nulls.py (the address extractor is
byte-identical to sample_address_res.py), together with proofs of the
specified properties.

Modelling conventions, mirroring Python and ElementTree semantics:
- Element text is `Option String`: `none` models the Python value None,
  which ElementTree returns as the text of an element that is present but
  has no text content.
- Required XML attributes (read with attrib[...]) are plain `String`
  fields; the source treats their absence as a fatal structural error.
- Optional attributes read with attrib.get(..., "") are plain `String`
  fields holding "" when absent.
- Optional child elements found with find(...) are `Option` fields.
- Python dicts are insertion-ordered association lists; `dget` mirrors
  dict.get with a default and last-write-wins semantics.
- Fallible code paths (AttributeError on a missing subtree, None.strip())
  are modelled with `Except Unit`.
-/

namespace WLF

/-- Python string-or-None, as produced by ElementTree element text. -/
abbrev PyStr := Option String

/-- Python rendering of a value inside an f-string: None prints as "None". -/
def pyShow : PyStr → String
  | some s => s
  | none => "None"

/-- Python truthiness of a string-or-None value: None and "" are falsy. -/
def pyTruthy : PyStr → Bool
  | some s => s != ""
  | none => false

/-- Text of an optional element, defaulted to the empty string when the
element is absent: the source idiom is writing x.text when find gave an
element and "" otherwise.  When the element is present its text may still
be None. -/
def textOrEmpty : Option PyStr → PyStr
  | some t => t
  | none => some ""

/-- Python dict, modelled as an association list in insertion order. -/
abbrev Dict (α : Type) := List (String × α)

/-- Value stored for a key: the last binding wins, as in a Python dict. -/
def lookupLast {α : Type} (m : Dict α) (k : String) : Option α :=
  (m.reverse.find? (fun p => p.1 == k)).map Prod.snd

/-- Python m.get(k, dflt). -/
def dget {α : Type} (m : Dict α) (k : String) (dflt : α) : α :=
  match lookupLast m k with
  | some v => v
  | none => dflt

/-- Keys of a dict. -/
def keys {α : Type} (m : Dict α) : List String := m.map Prod.fst

/-- Strip a class of characters from both ends of a string. -/
def stripEnds (p : Char → Bool) (s : String) : String :=
  String.mk (((s.data.dropWhile p).reverse.dropWhile p).reverse)

/-- Python str.strip() with no argument: strip surrounding whitespace. -/
def pyStripWs (s : String) : String := stripEnds Char.isWhitespace s

/-- Python strip applied to the double-quote character, as in the source
call that removes surrounding literal quote characters from a name part. -/
def pyStripQuotes (s : String) : String := stripEnds (fun c => c == '"') s

/-- Keep the first occurrence of each element, preserving order; the
elements of `seen` are suppressed. -/
def dedupFirstAux {α : Type} [DecidableEq α] (seen : List α) : List α → List α
  | [] => []
  | a :: l => if a ∈ seen then dedupFirstAux seen l else a :: dedupFirstAux (a :: seen) l

/-- Keep the first occurrence of each element of a list, preserving order. -/
def dedupFirst {α : Type} [DecidableEq α] (l : List α) : List α := dedupFirstAux [] l

/-- Last element of a list, if any. -/
def lastOpt {α : Type} : List α → Option α
  | [] => none
  | a :: l =>
    match lastOpt l with
    | some b => some b
    | none => some a

/-! ## Data model: the parsed XML document -/

/-- One entry of a reference value list: an ID attribute and a text label. -/
structure RefEntry where
  id : String
  text : PyStr
deriving DecidableEq

/-- A NamePartValue element: NamePartGroupID and ScriptID and Acronym
attributes, and its text. -/
structure NamePart where
  namePartGroupId : String
  text : PyStr
  scriptId : String
  acronym : String
deriving DecidableEq

/-- A DocumentedName element with its ID and its NamePartValue children. -/
structure DocumentedName where
  id : String
  nameParts : List NamePart
deriving DecidableEq

/-- An Alias element: AliasTypeID, LowQuality and Primary attributes. -/
structure Alias where
  aliasTypeId : String
  lowQuality : String
  primary : String
  documentedNames : List DocumentedName
deriving DecidableEq

/-- An Identity element: ID and FixedRef attributes (ElementTree reads the
FixedRef attribute of the Identity element itself). -/
structure Identity where
  id : String
  fixedRef : String
  aliases : List Alias
deriving DecidableEq

/-- A Profile element with its PartySubTypeID attribute. -/
structure Profile where
  partySubTypeId : String
  identities : List Identity
deriving DecidableEq

/-- A date bound inside a feature DatePeriod: the texts of the Year, Month
and Day child elements.  The source reads the text of these elements
without a None check, so the elements themselves are taken as present. -/
structure FBound where
  year : PyStr
  month : PyStr
  day : PyStr
deriving DecidableEq

/-- A DatePeriod inside a feature VersionDetail.  The field `stop` models
the element named End in the source (End is a reserved word in Lean). -/
structure FDatePeriod where
  start : Option FBound
  stop : Option FBound
deriving DecidableEq

/-- A VersionDetail element: DetailTypeID, DetailReferenceID and CountryID
attributes (read with attrib.get and default ""), its text, and an
optional DatePeriod subtree. -/
structure VersionDetail where
  detailTypeId : String
  detailReferenceId : String
  countryId : String
  text : PyStr
  datePeriod : Option FDatePeriod
deriving DecidableEq

/-- A FeatureVersion element: ReliabilityID attribute (attrib.get with
default ""), optional Comment element text, optional VersionDetail, and
optional VersionLocation whose LocationID attribute is read with
attrib.get and default "". -/
structure FeatureVersion where
  reliabilityId : String
  comment : Option PyStr
  versionDetail : Option VersionDetail
  versionLocation : Option String
deriving DecidableEq

/-- A Feature element with its FeatureTypeID attribute; the source
dereferences the first FeatureVersion without a None check, so it is
required here. -/
structure Feature where
  featureTypeId : String
  version : FeatureVersion
deriving DecidableEq

/-- A DistinctParty element: FixedRef attribute, Profile subtrees and
Feature subtrees. -/
structure Party where
  fixedRef : String
  profiles : List Profile
  features : List Feature
deriving DecidableEq

/-- One bound of an IDRegDocument DatePeriod: optional Year, Month and Day
elements, each with optional text; the source guards each with a None
check defaulting to "". -/
structure SubPeriod where
  year : Option PyStr
  month : Option PyStr
  day : Option PyStr
deriving DecidableEq

/-- A DatePeriod inside a DocumentDate; `stop` models the End element. -/
structure IdDatePeriod where
  start : Option SubPeriod
  stop : Option SubPeriod
deriving DecidableEq

/-- A DocumentDate element with its IDRegDocDateTypeID attribute. -/
structure DocumentDate where
  idRegDocDateTypeId : String
  datePeriod : Option IdDatePeriod
deriving DecidableEq

/-- An IDRegDocument element. -/
structure IDRegDocument where
  identityId : String
  idRegDocTypeId : String
  issuingAuthority : Option PyStr
  issuedByCountryId : String
  idRegistrationNo : Option PyStr
  documentDates : List DocumentDate
deriving DecidableEq

/-- A LocationPartValue element: optional Value and Comment child
elements, each with optional text. -/
structure LocPartValue where
  value : Option PyStr
  comment : Option PyStr
deriving DecidableEq

/-- A LocationPart element with its LocPartTypeID attribute. -/
structure LocationPart where
  locPartTypeId : String
  values : List LocPartValue
deriving DecidableEq

/-- A Location element: ID attribute, optional LocationAreaCode element
(AreaCodeID attribute), optional LocationCountry element (CountryID
attribute), optional IDRegDocumentReference element (IDRegDocumentID
attribute), and LocationPart subtrees. -/
structure Location where
  id : String
  areaCode : Option String
  countryId : Option String
  idRegDocRef : Option String
  parts : List LocationPart
deriving DecidableEq

/-- A SanctionsMeasure element: SanctionsTypeID attribute (attrib.get with
default "") and an optional Comment element with optional text. -/
structure SanctionsMeasure where
  sanctionsTypeId : String
  comment : Option PyStr
deriving DecidableEq

/-- A SanctionsEntry element: ID and ListID attributes (attrib.get with
default "") and its SanctionsMeasure subtrees. -/
structure SanctionsEntry where
  id : String
  listId : String
  measures : List SanctionsMeasure
deriving DecidableEq

/-- The document root.  The seven reference value-list subtrees are
optional: root.find returns None when a subtree is absent. -/
structure Root where
  countryValues : Option (List RefEntry)
  idRegDocTypeValues : Option (List RefEntry)
  listValues : Option (List RefEntry)
  sanctionsTypeValues : Option (List RefEntry)
  featureTypeValues : Option (List RefEntry)
  reliabilityValues : Option (List RefEntry)
  detailReferenceValues : Option (List RefEntry)
  distinctParties : List Party
  idRegDocuments : List IDRegDocument
  locations : List Location
  sanctionsEntries : List SanctionsEntry

/-! ## Reference Table Loader (get_mappings) -/

/-- Collect the id-to-text pairs of one value-list subtree.  When the
subtree is absent the source calls findall on None and raises an
AttributeError, modelled as an error. -/
def collectVals : Option (List RefEntry) → Except Unit (Dict PyStr)
  | none => .error ()
  | some es => .ok (es.map (fun e => (e.id, e.text)))

/-- The seven mappings returned by get_mappings, in source order:
country, document type, list, sanctions type, feature type, reliability,
detail reference. -/
structure Mappings where
  country : Dict PyStr
  docType : Dict PyStr
  listId : Dict PyStr
  sanctionsType : Dict PyStr
  featureType : Dict PyStr
  reliability : Dict PyStr
  detailReference : Dict PyStr
deriving DecidableEq

/-- get_mappings: build the seven code-to-label mappings by scanning each
value-list subtree in source order; the first absent subtree raises. -/
def get_mappings (root : Root) : Except Unit Mappings :=
  match collectVals root.countryValues with
  | .error e => .error e
  | .ok cm =>
    match collectVals root.idRegDocTypeValues with
    | .error e => .error e
    | .ok dtm =>
      match collectVals root.listValues with
      | .error e => .error e
      | .ok lm =>
        match collectVals root.sanctionsTypeValues with
        | .error e => .error e
        | .ok stm =>
          match collectVals root.featureTypeValues with
          | .error e => .error e
          | .ok ftm =>
            match collectVals root.reliabilityValues with
            | .error e => .error e
            | .ok rm =>
              match collectVals root.detailReferenceValues with
              | .error e => .error e
              | .ok drm => .ok ⟨cm, dtm, lm, stm, ftm, rm, drm⟩

/-! ## Feature Extractor (feature_parser) -/

/-- Render one bound of a feature date period: the f-string over the texts
of the Year, Month and Day elements (None prints as "None"). -/
def renderFBound (b : FBound) : String :=
  pyShow b.year ++ "-" ++ pyShow b.month ++ "-" ++ pyShow b.day

/-- The Value cell of a feature row before the Location override:
dispatch on DetailTypeID (1431 LOOKUP, 1432 TEXT, 1433 COUNTRY,
1430 DATE), defaulting to "". -/
def featureValue (drm : Dict PyStr) (fv : FeatureVersion) : PyStr :=
  match fv.versionDetail with
  | none => some ""
  | some vd =>
    if vd.detailTypeId == "1431" then dget drm vd.detailReferenceId (some "")
    else if vd.detailTypeId == "1432" then vd.text
    else if vd.detailTypeId == "1433" then some vd.countryId
    else if vd.detailTypeId == "1430" then
      match vd.datePeriod with
      | none => some ""
      | some dp =>
        match dp.start, dp.stop with
        | some s, some e => some (renderFBound s ++ " to " ++ renderFBound e)
        | some s, none => some ("From " ++ renderFBound s)
        | none, some e => some ("Until " ++ renderFBound e)
        | none, none => some ""
    else some ""

/-- One row of the FEATURE sheet. -/
structure FeatureRow where
  fixedRef : String
  featureType : PyStr
  value : PyStr
  reliabilityValue : PyStr
  comment : PyStr
deriving DecidableEq

/-- The row built for one (party, feature) pair by the body of the
feature_parser loop. -/
def featureRow (ftm rm drm : Dict PyStr) (fixedRef : String) (f : Feature) : FeatureRow :=
  let ft := dget ftm f.featureTypeId (some "")
  let v0 := featureValue drm f.version
  let v :=
    if ft == some "Location" then
      match f.version.versionLocation with
      | some lid => some lid
      | none => v0
    else v0
  { fixedRef := fixedRef
    featureType := ft
    value := v
    reliabilityValue := dget rm f.version.reliabilityId (some "Unknown")
    comment := textOrEmpty f.version.comment }

/-- feature_parser: one row per (DistinctParty, Feature) pair. -/
def featureParser (root : Root) (ftm rm drm : Dict PyStr) : List FeatureRow :=
  root.distinctParties.flatMap (fun p => p.features.map (featureRow ftm rm drm p.fixedRef))

/-! ## Identity-Document Extractor (id_parser) -/

/-- Render one sub-period as year-month-day; each component is the text of
an optional element, defaulted to "" when the element is absent, and
printed through the f-string (None prints as "None"). -/
def renderSub (sp : SubPeriod) : String :=
  pyShow (textOrEmpty sp.year) ++ "-" ++ pyShow (textOrEmpty sp.month) ++ "-" ++
    pyShow (textOrEmpty sp.day)

/-- The DocumentDate scan of id_parser: a Start sub-period overwrites the
issue date, an End sub-period overwrites the expiration date.  The
comparisons of IDRegDocDateTypeID with 1480 and 1481 in the source
reassign each variable to itself and are no-ops, so they do not appear. -/
def dateLoop : List DocumentDate → String → String → String × String
  | [], iss, ex => (iss, ex)
  | dd :: rest, iss, ex =>
    match dd.datePeriod with
    | none => dateLoop rest iss ex
    | some dp =>
      dateLoop rest
        (match dp.start with
         | some sp => renderSub sp
         | none => iss)
        (match dp.stop with
         | some sp => renderSub sp
         | none => ex)

/-- One row of the ID sheet. -/
structure IdRow where
  fixedRef : String
  documentTypeId : String
  documentTypeName : PyStr
  issuedBy : PyStr
  issuingCountryId : String
  issuingCountryName : PyStr
  issueDate : String
  expirationDate : String
  value : PyStr
deriving DecidableEq

/-- The row built for one IDRegDocument whose Identity was found; the
FixedRef cell is read from the matched Identity element. -/
def idRow (cm dtm : Dict PyStr) (ident : Identity) (d : IDRegDocument) : IdRow :=
  { fixedRef := ident.fixedRef
    documentTypeId := d.idRegDocTypeId
    documentTypeName := dget dtm d.idRegDocTypeId (some "Unknown Document Type")
    issuedBy := textOrEmpty d.issuingAuthority
    issuingCountryId := d.issuedByCountryId
    issuingCountryName := dget cm d.issuedByCountryId (some "Unknown Country")
    issueDate := (dateLoop d.documentDates "" "").1
    expirationDate := (dateLoop d.documentDates "" "").2
    value := textOrEmpty d.idRegistrationNo }

/-- root.find for a DistinctParty/Profile/Identity with a given ID: the
first Identity in document order whose ID attribute matches. -/
def findIdentity (parties : List Party) (iid : String) : Option Identity :=
  ((parties.flatMap Party.profiles).flatMap Profile.identities).find? (fun i => i.id == iid)

/-- id_parser: one row per IDRegDocument whose Identity is found; a
document whose Identity is not found is skipped. -/
def idParser (root : Root) (cm dtm : Dict PyStr) : List IdRow :=
  root.idRegDocuments.filterMap (fun d =>
    match findIdentity root.distinctParties d.identityId with
    | some ident => some (idRow cm dtm ident d)
    | none => none)

/-! ## Address Extractor (address_parser) -/

/-- The eight address-field cells accumulated per script. -/
structure AddrFields where
  unknown : PyStr
  region : PyStr
  address1 : PyStr
  address2 : PyStr
  address3 : PyStr
  city : PyStr
  stateProvince : PyStr
  postalCode : PyStr
deriving DecidableEq

/-- Address fields all initialised to "" as in the source dictionaries. -/
def emptyAddrFields : AddrFields :=
  ⟨some "", some "", some "", some "", some "", some "", some "", some ""⟩

/-- Assign a part value to the field selected by LocPartTypeID; an
unrecognised code assigns nothing. -/
def setByType (ptid : String) (v : PyStr) (a : AddrFields) : AddrFields :=
  if ptid == "1" then { a with unknown := v }
  else if ptid == "1450" then { a with region := v }
  else if ptid == "1451" then { a with address1 := v }
  else if ptid == "1452" then { a with address2 := v }
  else if ptid == "1453" then { a with address3 := v }
  else if ptid == "1454" then { a with city := v }
  else if ptid == "1455" then { a with stateProvince := v }
  else if ptid == "1456" then { a with postalCode := v }
  else a

/-- The emission test for a script bucket: any of the eight fields truthy. -/
def anyTruthy (a : AddrFields) : Bool :=
  pyTruthy a.unknown || pyTruthy a.region || pyTruthy a.address1 || pyTruthy a.address2 ||
    pyTruthy a.address3 || pyTruthy a.city || pyTruthy a.stateProvince || pyTruthy a.postalCode

/-- The non_latin_data dict: script name to address fields, in insertion
order. -/
abbrev ScriptBuckets := List (String × AddrFields)

/-- The five script buckets preset by the source. -/
def initBuckets : ScriptBuckets :=
  [("Chinese Simplified", emptyAddrFields), ("Chinese Traditional", emptyAddrFields),
   ("Cyrillic", emptyAddrFields), ("Arabic", emptyAddrFields), ("Japanese", emptyAddrFields)]

/-- Membership test of a script name in the bucket dict. -/
def bucketHas (nd : ScriptBuckets) (k : String) : Bool := nd.any (fun p => p.1 == k)

/-- Create the bucket for a script name on first sight. -/
def bucketEnsure (nd : ScriptBuckets) (k : String) : ScriptBuckets :=
  if bucketHas nd k then nd else nd ++ [(k, emptyAddrFields)]

/-- Assign one field of the bucket of a script name. -/
def bucketSet (nd : ScriptBuckets) (k : String) (ptid : String) (v : PyStr) : ScriptBuckets :=
  (bucketEnsure nd k).map (fun p => if p.1 == k then (p.1, setByType ptid v p.2) else p)

/-- Process one LocationPartValue: a falsy comment (absent element, or
element with None or empty text) routes the value into the base Latin
fields; a truthy comment routes it into the bucket named by the comment. -/
def processPV (ptid : String) (pv : LocPartValue) (st : AddrFields × ScriptBuckets) :
    AddrFields × ScriptBuckets :=
  let v := textOrEmpty pv.value
  match textOrEmpty pv.comment with
  | none => (setByType ptid v st.1, st.2)
  | some c =>
    if c == "" then (setByType ptid v st.1, st.2)
    else (st.1, bucketSet st.2 c ptid v)

/-- Process all LocationPartValue children of one LocationPart. -/
def processPart (st : AddrFields × ScriptBuckets) (part : LocationPart) :
    AddrFields × ScriptBuckets :=
  part.values.foldl (fun st pv => processPV part.locPartTypeId pv st) st

/-- Process all LocationParts of one Location. -/
def processParts (parts : List LocationPart) : AddrFields × ScriptBuckets :=
  parts.foldl processPart (emptyAddrFields, initBuckets)

/-- One row of the ADDRESS sheet, with the fourteen keys of the data
dictionary built by the source (CountryRelevanceID is only added later by
the sheet writer). -/
structure AddressRow where
  id : String
  fixedRef : String
  areaCodeId : String
  country : PyStr
  featureVersionId : PyStr
  unknown : PyStr
  region : PyStr
  address1 : PyStr
  address2 : PyStr
  address3 : PyStr
  city : PyStr
  stateProvince : PyStr
  postalCode : PyStr
  scriptType : String
deriving DecidableEq

/-- Area code of a Location: AreaCodeID when the LocationAreaCode element
is present, "" otherwise. -/
def locAreaCode (loc : Location) : String := loc.areaCode.getD ""

/-- Country code of a Location: CountryID when the LocationCountry element
is present, "" otherwise. -/
def locCountryId (loc : Location) : String := loc.countryId.getD ""

/-- Country cell of a Location: the 11291 override forces "undetermined"
when no country code is present; otherwise the country mapping with
default "". -/
def locCountryName (cm : Dict PyStr) (loc : Location) : PyStr :=
  if locAreaCode loc == "11291" && locCountryId loc == "" then some "undetermined"
  else dget cm (locCountryId loc) (some "")

/-- FixedRef cell of a Location: follow the IDRegDocumentReference through
the identity map, defaulting to "". -/
def locFixedRef (im : Dict String) (loc : Location) : String :=
  match loc.idRegDocRef with
  | some r => dget im r ""
  | none => ""

/-- The base (Latin) row of one Location, carrying the final base fields. -/
def baseRow (im : Dict String) (cm : Dict PyStr) (loc : Location) (flds : AddrFields)
    (isFirst : Bool) : AddressRow :=
  { id := loc.id
    fixedRef := locFixedRef im loc
    areaCodeId := locAreaCode loc
    country := locCountryName cm loc
    featureVersionId := some ""
    unknown := flds.unknown
    region := flds.region
    address1 := flds.address1
    address2 := flds.address2
    address3 := flds.address3
    city := flds.city
    stateProvince := flds.stateProvince
    postalCode := flds.postalCode
    scriptType := if isFirst then "Latin" else "" }

/-- A script-variant row: a copy of the base row with the bucket fields
substituted and the script name as Script Type. -/
def bucketRow (b : AddressRow) (k : String) (flds : AddrFields) : AddressRow :=
  { b with
    unknown := flds.unknown
    region := flds.region
    address1 := flds.address1
    address2 := flds.address2
    address3 := flds.address3
    city := flds.city
    stateProvince := flds.stateProvince
    postalCode := flds.postalCode
    scriptType := k }

/-- The script-variant rows emitted after the base row: one per bucket
with at least one truthy field, in bucket order. -/
def bucketRows (b : AddressRow) (nd : ScriptBuckets) : List AddressRow :=
  nd.filterMap (fun p => if anyTruthy p.2 then some (bucketRow b p.1 p.2) else none)

/-- All rows emitted for one Location: the base row, then the non-empty
script buckets. -/
def locationRows (im : Dict String) (cm : Dict PyStr) (loc : Location) (isFirst : Bool) :
    List AddressRow :=
  let st := processParts loc.parts
  let b := baseRow im cm loc st.1 isFirst
  b :: bucketRows b st.2

/-- The loop over Locations, threading the first_occurrence set of IDs. -/
def addrLoop (im : Dict String) (cm : Dict PyStr) :
    List Location → List String → List AddressRow
  | [], _ => []
  | loc :: rest, seen =>
    if loc.id ∈ seen then locationRows im cm loc false ++ addrLoop im cm rest seen
    else locationRows im cm loc true ++ addrLoop im cm rest (loc.id :: seen)

/-- The identity_to_fixed_ref map: Identity ID to the FixedRef of the
containing DistinctParty, in document order (last write wins). -/
def buildIdentityMap (parties : List Party) : Dict String :=
  parties.flatMap (fun p => p.profiles.flatMap (fun pr => pr.identities.map (fun i => (i.id, p.fixedRef))))

/-- address_parser. -/
def addressParser (root : Root) (cm : Dict PyStr) : List AddressRow :=
  addrLoop (buildIdentityMap root.distinctParties) cm root.locations []

/-! ## Name Extractor (name_parser) -/

/-- The name_dict of format_name: the ten role slots, initialised to "". -/
structure NameDict where
  lastName : String
  firstName : String
  middleName : String
  maidenName : String
  patronymic : String
  matronymic : String
  nickname : String
  entityName : String
  aircraftName : String
  vesselName : String
deriving DecidableEq

/-- All role slots empty. -/
def emptyNameDict : NameDict := ⟨"", "", "", "", "", "", "", "", "", ""⟩

/-- Process one name part: strip surrounding quote characters from its
text (None.strip raises, modelled as an error), resolve its group to a
name-part-type code, and assign the matching role slot; an unresolved or
unrecognised code assigns nothing. -/
def applyNamePart (npt : Dict String) (d : NameDict) (p : NamePart) : Except Unit NameDict :=
  match p.text with
  | none => .error ()
  | some t =>
    let v := pyStripQuotes t
    match lookupLast npt p.namePartGroupId with
    | some "1520" => .ok { d with lastName := v }
    | some "1521" => .ok { d with firstName := v }
    | some "1522" => .ok { d with middleName := v }
    | some "1523" => .ok { d with maidenName := v }
    | some "91708" => .ok { d with patronymic := v }
    | some "91709" => .ok { d with matronymic := v }
    | some "1528" => .ok { d with nickname := v }
    | some "1525" => .ok { d with entityName := v }
    | some "1524" => .ok { d with aircraftName := v }
    | some "1526" => .ok { d with vesselName := v }
    | _ => .ok d

/-- The return chain of format_name: the priority rendering of the filled
role slots. -/
def renderName (d : NameDict) : String :=
  if d.lastName != "" && d.firstName != "" then
    pyStripWs (d.lastName ++ ", " ++ d.firstName ++ " " ++ d.middleName ++ " " ++ d.maidenName)
  else if d.lastName != "" then d.lastName
  else if d.patronymic != "" && d.matronymic != "" && d.firstName != "" then
    pyStripWs (d.patronymic ++ " " ++ d.matronymic ++ ", " ++ d.firstName ++ " " ++
      d.middleName ++ " " ++ d.maidenName)
  else if d.nickname != "" then d.nickname
  else if d.entityName != "" then d.entityName
  else if d.aircraftName != "" then d.aircraftName
  else if d.vesselName != "" then d.vesselName
  else ""

/-- The loop of format_name over the name parts. -/
def buildNameDict (npt : Dict String) : List NamePart → NameDict → Except Unit NameDict
  | [], d => .ok d
  | p :: ps, d =>
    match applyNamePart npt d p with
    | .error e => .error e
    | .ok d2 => buildNameDict npt ps d2

/-- format_name: fill the role slots from the name parts, then render. -/
def format_name (npt : Dict String) (parts : List NamePart) : Except Unit String :=
  match buildNameDict npt parts emptyNameDict with
  | .error e => .error e
  | .ok d => .ok (renderName d)

/-- get_designation: the hardcoded party-subtype dispatch. -/
def get_designation (partySubTypeId : String) : String :=
  if partySubTypeId == "1" then "Vessel"
  else if partySubTypeId == "2" then "Aircraft"
  else if partySubTypeId == "3" then "Business"
  else if partySubTypeId == "4" then "Individual"
  else "Unknown"

/-- One record of the NAME sheet: the nine output columns in order. -/
structure NameRecord where
  fixedRef : String
  documentedNameId : String
  designation : String
  primaryEntry : String
  aliasType : PyStr
  lowQuality : String
  acronym : String
  script : PyStr
  name : String
deriving DecidableEq

/-- The inputs of one iteration of the innermost name_parser loop. -/
structure RecordInput where
  fixedRef : String
  partySubTypeId : String
  aliasTypeId : String
  lowQuality : String
  primary : String
  documentedNameId : String
  nameParts : List NamePart
deriving DecidableEq

/-- The nested iteration of name_parser, flattened in document order:
party, profile, identity, alias, documented name. -/
def docnameTuples (parties : List Party) : List RecordInput :=
  parties.flatMap (fun p => p.profiles.flatMap (fun pr => pr.identities.flatMap (fun i =>
    i.aliases.flatMap (fun a => a.documentedNames.map (fun dn =>
      ⟨p.fixedRef, pr.partySubTypeId, a.aliasTypeId, a.lowQuality, a.primary, dn.id,
        dn.nameParts⟩)))))

/-- ScriptID of the first name part, "Unknown" when there are none. -/
def scriptIdOf (parts : List NamePart) : String :=
  match parts with
  | p :: _ => p.scriptId
  | [] => "Unknown"

/-- Acronym attribute of the first name part, "false" when there are none. -/
def acronymOf (parts : List NamePart) : String :=
  match parts with
  | p :: _ => p.acronym
  | [] => "false"

/-- The candidate record of one documented name. -/
def mkRecord (sv atv : Dict PyStr) (npt : Dict String) (inp : RecordInput) :
    Except Unit NameRecord :=
  match format_name npt inp.nameParts with
  | .error e => .error e
  | .ok nm =>
    .ok { fixedRef := inp.fixedRef
          documentedNameId := inp.documentedNameId
          designation := get_designation inp.partySubTypeId
          primaryEntry := inp.primary
          aliasType := dget atv inp.aliasTypeId (some "Unknown")
          lowQuality := inp.lowQuality
          acronym := acronymOf inp.nameParts
          script := dget sv (scriptIdOf inp.nameParts) (some "Unknown")
          name := nm }

/-- All candidate records, without deduplication. -/
def mkRecords (sv atv : Dict PyStr) (npt : Dict String) :
    List RecordInput → Except Unit (List NameRecord)
  | [] => .ok []
  | i :: is =>
    match mkRecord sv atv npt i with
    | .error e => .error e
    | .ok r =>
      match mkRecords sv atv npt is with
      | .error e => .error e
      | .ok rs => .ok (r :: rs)

/-- The emission loop of name_parser, threading the seen_records set and
the emitted rows. -/
def nameLoop (sv atv : Dict PyStr) (npt : Dict String) :
    List RecordInput → List NameRecord → List NameRecord → Except Unit (List NameRecord)
  | [], _, rows => .ok rows
  | i :: is, seen, rows =>
    match mkRecord sv atv npt i with
    | .error e => .error e
    | .ok r =>
      if r ∈ seen then nameLoop sv atv npt is seen rows
      else nameLoop sv atv npt is (r :: seen) (rows ++ [r])

/-- name_parser.  The party_subtype_values argument of the source is kept
in the signature; the body never consults it. -/
def nameParser (root : Root) (sv pstv atv : Dict PyStr) (npt : Dict String) :
    Except Unit (List NameRecord) :=
  nameLoop sv atv npt (docnameTuples root.distinctParties) [] []

/-! ## Sanctions-Entry Extractor (sanctions_entries_parser) -/

/-- One row of the SANCTIONS_ENTRIES sheet for one measure: entry ID,
resolved list name, resolved sanctions type, and the measure comment text
(the "" default applies only when the Comment element is absent; a
present Comment element contributes its text verbatim, None included). -/
def measureRow (stm : Dict PyStr) (entryId : String) (listName : PyStr)
    (m : SanctionsMeasure) : List PyStr :=
  [some entryId, listName, dget stm m.sanctionsTypeId (some "Unknown Type"),
   textOrEmpty m.comment]

/-- All rows of one SanctionsEntry. -/
def entryRows (lm stm : Dict PyStr) (e : SanctionsEntry) : List (List PyStr) :=
  e.measures.map (measureRow stm e.id (dget lm e.listId (some "Unknown List")))

/-- sanctions_entries_parser: one row per (entry, measure) pair. -/
def sanctionsEntriesParser (root : Root) (lm stm : Dict PyStr) : List (List PyStr) :=
  root.sanctionsEntries.flatMap (entryRows lm stm)

/-! ## Dictionary lemmas -/

theorem lookupLast_of_not_mem {α : Type} {m : Dict α} {k : String} (h : k ∉ keys m) :
    lookupLast m k = none := by
  have hfind : m.reverse.find? (fun p => p.1 == k) = none := by
    apply List.find?_eq_none.mpr
    intro p hp
    simp only [beq_iff_eq]
    intro hpk
    exact h (by simpa [keys] using List.mem_map.mpr ⟨p, List.mem_reverse.mp hp, hpk⟩)
  simp [lookupLast, hfind]

theorem dget_of_lookupLast {α : Type} {m : Dict α} {k : String} {v : α}
    (h : lookupLast m k = some v) (dflt : α) : dget m k dflt = v := by
  simp [dget, h]

theorem dget_of_not_mem {α : Type} {m : Dict α} {k : String} (h : k ∉ keys m) (dflt : α) :
    dget m k dflt = dflt := by
  simp [dget, lookupLast_of_not_mem h]

/-! ## Claim C1: reference-table resolution and defaults -/

/-- A feature whose type code 77 appears in no table, with an empty
version. -/
def c1feat : Feature := ⟨"77", ⟨"", none, none, none⟩⟩

/-- Claim C1, counterexample: at the feature-type lookup site an absent
code resolves to the empty string, which is none of the five documented
sentinel labels, refuting the claim that every lookup site degrades to a
sentinel from that list.  (The detail-reference and address-country sites
default to the empty string as well.) -/
theorem c1_default_not_sentinel :
    (featureRow [] [] [] "P1" c1feat).featureType = some "" ∧
    (some "" : PyStr) ∉ [some "Unknown", some "Unknown Country",
      some "Unknown Document Type", some "Unknown List", some "Unknown Type"] := by
  exact ⟨rfl, by decide⟩

/-- Claim C1 (corrected): at every lookup site a code present in its table
resolves to exactly the label stored for it (last write wins), and an
absent code resolves to that site's own default: the empty string for
feature type, detail reference and address country (outside the 11291
override), "Unknown" for reliability, alias type and script,
"Unknown Document Type" for document type, "Unknown Country" for issuing
country, "Unknown List" for list, "Unknown Type" for sanctions type. -/
theorem c1_resolution_defaults
    (ftm rm drm dtm cm lm stm sv atv : Dict PyStr) (npt : Dict String)
    (fr : String) (f : Feature) (vd : VersionDetail)
    (ident : Identity) (d : IDRegDocument)
    (im : Dict String) (loc : Location) (flds : AddrFields) (isFirst : Bool)
    (eid : String) (ln : PyStr) (m : SanctionsMeasure) (e : SanctionsEntry)
    (inp : RecordInput) (r : NameRecord) :
    (∀ v, lookupLast ftm f.featureTypeId = some v →
      (featureRow ftm rm drm fr f).featureType = v) ∧
    (f.featureTypeId ∉ keys ftm → (featureRow ftm rm drm fr f).featureType = some "") ∧
    (∀ v, lookupLast rm f.version.reliabilityId = some v →
      (featureRow ftm rm drm fr f).reliabilityValue = v) ∧
    (f.version.reliabilityId ∉ keys rm →
      (featureRow ftm rm drm fr f).reliabilityValue = some "Unknown") ∧
    (f.version.versionDetail = some vd → vd.detailTypeId = "1431" →
      dget ftm f.featureTypeId (some "") ≠ some "Location" →
      (∀ v, lookupLast drm vd.detailReferenceId = some v →
        (featureRow ftm rm drm fr f).value = v) ∧
      (vd.detailReferenceId ∉ keys drm → (featureRow ftm rm drm fr f).value = some "")) ∧
    (∀ v, lookupLast dtm d.idRegDocTypeId = some v →
      (idRow cm dtm ident d).documentTypeName = v) ∧
    (d.idRegDocTypeId ∉ keys dtm →
      (idRow cm dtm ident d).documentTypeName = some "Unknown Document Type") ∧
    (∀ v, lookupLast cm d.issuedByCountryId = some v →
      (idRow cm dtm ident d).issuingCountryName = v) ∧
    (d.issuedByCountryId ∉ keys cm →
      (idRow cm dtm ident d).issuingCountryName = some "Unknown Country") ∧
    (¬(locAreaCode loc = "11291" ∧ locCountryId loc = "") →
      (∀ v, lookupLast cm (locCountryId loc) = some v →
        (baseRow im cm loc flds isFirst).country = v) ∧
      (locCountryId loc ∉ keys cm → (baseRow im cm loc flds isFirst).country = some "")) ∧
    (∀ v, lookupLast lm e.listId = some v →
      ∀ row ∈ entryRows lm stm e, row.get? 1 = some v) ∧
    (e.listId ∉ keys lm →
      ∀ row ∈ entryRows lm stm e, row.get? 1 = some (some "Unknown List")) ∧
    (∀ v, lookupLast stm m.sanctionsTypeId = some v →
      (measureRow stm eid ln m).get? 2 = some v) ∧
    (m.sanctionsTypeId ∉ keys stm →
      (measureRow stm eid ln m).get? 2 = some (some "Unknown Type")) ∧
    (mkRecord sv atv npt inp = .ok r →
      (∀ v, lookupLast atv inp.aliasTypeId = some v → r.aliasType = v) ∧
      (inp.aliasTypeId ∉ keys atv → r.aliasType = some "Unknown")) ∧
    (mkRecord sv atv npt inp = .ok r →
      (∀ v, lookupLast sv (scriptIdOf inp.nameParts) = some v → r.script = v) ∧
      (scriptIdOf inp.nameParts ∉ keys sv → r.script = some "Unknown")) := by
  have hrec : ∀ (h : mkRecord sv atv npt inp = .ok r),
      r.aliasType = dget atv inp.aliasTypeId (some "Unknown") ∧
      r.script = dget sv (scriptIdOf inp.nameParts) (some "Unknown") := by
    intro h
    cases hf : format_name npt inp.nameParts with
    | error e2 => simp [mkRecord, hf] at h
    | ok nm =>
      simp only [mkRecord, hf, Except.ok.injEq] at h
      subst h
      exact ⟨rfl, rfl⟩
  refine ⟨?_, ?_, ?_, ?_, ?_, ?_, ?_, ?_, ?_, ?_, ?_, ?_, ?_, ?_, ?_, ?_⟩
  · intro v hv
    exact dget_of_lookupLast hv _
  · intro hk
    exact dget_of_not_mem hk _
  · intro v hv
    exact dget_of_lookupLast hv _
  · intro hk
    exact dget_of_not_mem hk _
  · intro hvd ht hL
    have hval : (featureRow ftm rm drm fr f).value =
        dget drm vd.detailReferenceId (some "") := by
      simp [featureRow, featureValue, hvd, ht, hL]
    constructor
    · intro v hv
      rw [hval]
      exact dget_of_lookupLast hv _
    · intro hk
      rw [hval]
      exact dget_of_not_mem hk _
  · intro v hv
    exact dget_of_lookupLast hv _
  · intro hk
    exact dget_of_not_mem hk _
  · intro v hv
    exact dget_of_lookupLast hv _
  · intro hk
    exact dget_of_not_mem hk _
  · intro hno
    have hval : (baseRow im cm loc flds isFirst).country =
        dget cm (locCountryId loc) (some "") := by
      rcases Decidable.em (locAreaCode loc = "11291") with ha | ha
      · rcases Decidable.em (locCountryId loc = "") with hb | hb
        · exact absurd ⟨ha, hb⟩ hno
        · simp [baseRow, locCountryName, ha, hb]
      · simp [baseRow, locCountryName, ha]
    constructor
    · intro v hv
      rw [hval]
      exact dget_of_lookupLast hv _
    · intro hk
      rw [hval]
      exact dget_of_not_mem hk _
  · intro v hv row hrow
    obtain ⟨mm, _, hmm⟩ := List.mem_map.mp hrow
    rw [← hmm, measureRow]
    simp [dget_of_lookupLast hv]
  · intro hk row hrow
    obtain ⟨mm, _, hmm⟩ := List.mem_map.mp hrow
    rw [← hmm, measureRow]
    simp [dget_of_not_mem hk]
  · intro v hv
    show some (dget stm m.sanctionsTypeId (some "Unknown Type")) = some v
    rw [dget_of_lookupLast hv]
  · intro hk
    show some (dget stm m.sanctionsTypeId (some "Unknown Type")) =
      some (some "Unknown Type")
    rw [dget_of_not_mem hk]
  · intro h
    constructor
    · intro v hv
      rw [(hrec h).1]
      exact dget_of_lookupLast hv _
    · intro hk
      rw [(hrec h).1]
      exact dget_of_not_mem hk _
  · intro h
    constructor
    · intro v hv
      rw [(hrec h).2]
      exact dget_of_lookupLast hv _
    · intro hk
      rw [(hrec h).2]
      exact dget_of_not_mem hk _

/-! Concrete data for the C1 witness: one instantiation where every code
is present in its table, one where every code is absent. -/

/-- Feature-type table for the C1 witness. -/
def c1ftmP : Dict PyStr := [("10", some "Birth Date")]
/-- Reliability table for the C1 witness. -/
def c1rmP : Dict PyStr := [("1", some "High")]
/-- Detail-reference table for the C1 witness. -/
def c1drmP : Dict PyStr := [("5", some "Male")]
/-- Document-type table for the C1 witness. -/
def c1dtmP : Dict PyStr := [("1571", some "Passport")]
/-- Country table for the C1 witness. -/
def c1cmP : Dict PyStr := [("11", some "France")]
/-- List table for the C1 witness. -/
def c1lmP : Dict PyStr := [("91", some "SDN List")]
/-- Sanctions-type table for the C1 witness. -/
def c1stmP : Dict PyStr := [("2", some "Block")]
/-- Script table for the C1 witness. -/
def c1svP : Dict PyStr := [("215", some "Latin")]
/-- Alias-type table for the C1 witness. -/
def c1atvP : Dict PyStr := [("1403", some "A.K.A.")]

/-- A LOOKUP version detail whose reference code is present. -/
def c1vdP : VersionDetail := ⟨"1431", "5", "", some "", none⟩
/-- A feature whose codes are all present in the witness tables. -/
def c1featP : Feature := ⟨"10", ⟨"1", none, some c1vdP, none⟩⟩
/-- A LOOKUP version detail whose reference code is absent. -/
def c1vdM : VersionDetail := ⟨"1431", "99", "", some "", none⟩
/-- A feature whose codes are all absent from the witness tables. -/
def c1featM : Feature := ⟨"99", ⟨"9", none, some c1vdM, none⟩⟩
/-- An identity document whose codes are present. -/
def c1docP : IDRegDocument := ⟨"7", "1571", none, "11", none, []⟩
/-- An identity document whose codes are absent. -/
def c1docM : IDRegDocument := ⟨"7", "9999", none, "99", none, []⟩
/-- The identity used by the C1 witness. -/
def c1identP : Identity := ⟨"7", "100", []⟩
/-- A location whose country code is present. -/
def c1locP : Location := ⟨"L1", none, some "11", none, []⟩
/-- A location whose country code is absent. -/
def c1locM : Location := ⟨"L2", none, some "99", none, []⟩
/-- A sanctions entry and measure with present codes. -/
def c1entryP : SanctionsEntry := ⟨"36", "91", [⟨"2", none⟩]⟩
/-- The measure of `c1entryP`. -/
def c1measP : SanctionsMeasure := ⟨"2", none⟩
/-- A sanctions entry and measure with absent codes. -/
def c1entryM : SanctionsEntry := ⟨"37", "99", [⟨"99", none⟩]⟩
/-- The measure of `c1entryM`. -/
def c1measM : SanctionsMeasure := ⟨"99", none⟩
/-- A record input whose alias-type and script codes are present. -/
def c1inpP : RecordInput :=
  ⟨"100", "4", "1403", "false", "true", "5001", [⟨"7", some "X", "215", "false"⟩]⟩
/-- The record built from `c1inpP`. -/
def c1recP : NameRecord :=
  ⟨"100", "5001", "Individual", "true", some "A.K.A.", "false", "false", some "Latin", ""⟩
/-- A record input whose alias-type and script codes are absent. -/
def c1inpM : RecordInput :=
  ⟨"100", "4", "9999", "false", "true", "5002", [⟨"7", some "X", "999", "false"⟩]⟩
/-- The record built from `c1inpM`. -/
def c1recM : NameRecord :=
  ⟨"100", "5002", "Individual", "true", some "Unknown", "false", "false", some "Unknown", ""⟩

theorem c1_resolution_defaults_witness :
    (featureRow c1ftmP c1rmP c1drmP "100" c1featP).featureType = some "Birth Date" ∧
    (featureRow c1ftmP c1rmP c1drmP "100" c1featM).featureType = some "" ∧
    (featureRow c1ftmP c1rmP c1drmP "100" c1featP).reliabilityValue = some "High" ∧
    (featureRow c1ftmP c1rmP c1drmP "100" c1featM).reliabilityValue = some "Unknown" ∧
    (featureRow c1ftmP c1rmP c1drmP "100" c1featP).value = some "Male" ∧
    (featureRow c1ftmP c1rmP c1drmP "100" c1featM).value = some "" ∧
    (idRow c1cmP c1dtmP c1identP c1docP).documentTypeName = some "Passport" ∧
    (idRow c1cmP c1dtmP c1identP c1docM).documentTypeName =
      some "Unknown Document Type" ∧
    (idRow c1cmP c1dtmP c1identP c1docP).issuingCountryName = some "France" ∧
    (idRow c1cmP c1dtmP c1identP c1docM).issuingCountryName = some "Unknown Country" ∧
    (baseRow [] c1cmP c1locP emptyAddrFields true).country = some "France" ∧
    (baseRow [] c1cmP c1locM emptyAddrFields true).country = some "" ∧
    ([some "36", some "SDN List", some "Block", some ""] : List PyStr).get? 1 =
      some (some "SDN List") ∧
    ([some "37", some "Unknown List", some "Unknown Type", some ""] : List PyStr).get? 1 =
      some (some "Unknown List") ∧
    (measureRow c1stmP "36" (some "SDN List") c1measP).get? 2 = some (some "Block") ∧
    (measureRow c1stmP "37" (some "Unknown List") c1measM).get? 2 =
      some (some "Unknown Type") ∧
    c1recP.aliasType = some "A.K.A." ∧
    c1recM.aliasType = some "Unknown" ∧
    c1recP.script = some "Latin" ∧
    c1recM.script = some "Unknown" := by
  have hP := c1_resolution_defaults c1ftmP c1rmP c1drmP c1dtmP c1cmP c1lmP c1stmP
    c1svP c1atvP [] "100" c1featP c1vdP c1identP c1docP [] c1locP emptyAddrFields true
    "36" (some "SDN List") c1measP c1entryP c1inpP c1recP
  have hM := c1_resolution_defaults c1ftmP c1rmP c1drmP c1dtmP c1cmP c1lmP c1stmP
    c1svP c1atvP [] "100" c1featM c1vdM c1identP c1docM [] c1locM emptyAddrFields true
    "37" (some "Unknown List") c1measM c1entryM c1inpM c1recM
  obtain ⟨p1, p2, p3, p4, p5, p6, p7, p8, p9, p10, p11, p12, p13, p14, p15, p16⟩ := hP
  obtain ⟨q1, q2, q3, q4, q5, q6, q7, q8, q9, q10, q11, q12, q13, q14, q15, q16⟩ := hM
  refine ⟨p1 _ rfl, q2 (by decide), p3 _ rfl, q4 (by decide), (p5 rfl rfl (by decide)).1 _ rfl,
    (q5 rfl rfl (by decide)).2 (by decide), p6 _ rfl, q7 (by decide), p8 _ rfl,
    q9 (by decide), (p10 (by decide)).1 _ rfl, (q10 (by decide)).2 (by decide),
    p11 _ rfl _ (by decide), q12 (by decide) _ (by decide), p13 _ rfl, q14 (by decide),
    (p15 rfl).1 _ rfl, (q15 rfl).2 (by decide), (p16 rfl).1 _ rfl, (q16 rfl).2 (by decide)⟩

/-! ## Claim C3: issue and expiration dates of identity documents -/

/-- The Start sub-periods of the scanned DocumentDates, in scan order. -/
def startsOf (dds : List DocumentDate) : List SubPeriod :=
  dds.filterMap (fun dd => dd.datePeriod.bind IdDatePeriod.start)

/-- The End sub-periods of the scanned DocumentDates, in scan order. -/
def stopsOf (dds : List DocumentDate) : List SubPeriod :=
  dds.filterMap (fun dd => dd.datePeriod.bind IdDatePeriod.stop)

/-- Render the last sub-period when there is one, otherwise a default. -/
def renderOr (o : Option SubPeriod) (dflt : String) : String :=
  match o with
  | some sp => renderSub sp
  | none => dflt

theorem renderOr_lastOpt_cons (sp : SubPeriod) (l : List SubPeriod) (dflt : String) :
    renderOr (lastOpt (sp :: l)) dflt = renderOr (lastOpt l) (renderSub sp) := by
  cases h : lastOpt l <;> simp [lastOpt, renderOr, h]

theorem dateLoop_spec : ∀ (dds : List DocumentDate) (iss ex : String),
    dateLoop dds iss ex =
      (renderOr (lastOpt (startsOf dds)) iss, renderOr (lastOpt (stopsOf dds)) ex) := by
  intro dds
  induction dds with
  | nil => intro iss ex; simp [dateLoop, startsOf, stopsOf, lastOpt, renderOr]
  | cons dd rest ih =>
    intro iss ex
    cases hdp : dd.datePeriod with
    | none =>
      simp [dateLoop, hdp, startsOf, stopsOf, List.filterMap_cons, ih]
    | some dp =>
      cases hs : dp.start <;> cases he : dp.stop <;>
        simp [dateLoop, hdp, hs, he, startsOf, stopsOf, List.filterMap_cons, ih,
          renderOr_lastOpt_cons]

/-- Replace the date-type tag of every DocumentDate of a document. -/
def retagDates (f : String → String) (d : IDRegDocument) : IDRegDocument :=
  { d with
    documentDates := d.documentDates.map (fun dd =>
      { dd with idRegDocDateTypeId := f dd.idRegDocDateTypeId }) }

/-- Claim C3 (confirmed): the emitted Issue date is the rendering
year-month-day of the Start sub-period of the last scanned dated event
that has one, the Expiration date likewise from the last End sub-period,
each empty when no such sub-period exists; and both fields are unchanged
under any rewriting of the date-type codes of the events, so population
is independent of whether an event is tagged 1480 or 1481, and the last
scanned event wins. -/
theorem c3_id_dates (cm dtm : Dict PyStr) (ident : Identity) (d : IDRegDocument) :
    (idRow cm dtm ident d).issueDate = renderOr (lastOpt (startsOf d.documentDates)) "" ∧
    (idRow cm dtm ident d).expirationDate =
      renderOr (lastOpt (stopsOf d.documentDates)) "" ∧
    ∀ f : String → String,
      (idRow cm dtm ident (retagDates f d)).issueDate = (idRow cm dtm ident d).issueDate ∧
      (idRow cm dtm ident (retagDates f d)).expirationDate =
        (idRow cm dtm ident d).expirationDate := by
  have hmap : ∀ f : String → String,
      startsOf (d.documentDates.map (fun dd =>
        { dd with idRegDocDateTypeId := f dd.idRegDocDateTypeId })) =
        startsOf d.documentDates ∧
      stopsOf (d.documentDates.map (fun dd =>
        { dd with idRegDocDateTypeId := f dd.idRegDocDateTypeId })) =
        stopsOf d.documentDates := by
    intro f
    constructor <;> (simp only [startsOf, stopsOf, List.filterMap_map]; rfl)
  refine ⟨?_, ?_, ?_⟩
  · simp [idRow, dateLoop_spec]
  · simp [idRow, dateLoop_spec]
  · intro f
    constructor <;> simp [idRow, retagDates, dateLoop_spec, (hmap f).1, (hmap f).2]

/-! ## Claim C6: the 11291 "undetermined" override -/

/-- Claim C6 (confirmed): when the area code of a Location is the sentinel
11291 and no country code is present, the Country cell of its emitted row
is "undetermined"; when a country code is present the ordinary country
lookup applies and the override does not.  Every row of a Location copies
the Country cell of the base row, so this covers all rows. -/
theorem c6_undetermined_override (im : Dict String) (cm : Dict PyStr) (loc : Location)
    (flds : AddrFields) (isFirst : Bool) (h : locAreaCode loc = "11291") :
    (locCountryId loc = "" →
      (baseRow im cm loc flds isFirst).country = some "undetermined") ∧
    (locCountryId loc ≠ "" →
      (baseRow im cm loc flds isFirst).country = dget cm (locCountryId loc) (some "")) := by
  constructor
  · intro h2
    simp [baseRow, locCountryName, h, h2]
  · intro h2
    simp [baseRow, locCountryName, h, h2]

/-- A Location with area code 11291 and no country code. -/
def c6loc1 : Location := ⟨"L1", some "11291", none, none, []⟩

/-- A Location with area code 11291 and country code 11111. -/
def c6loc2 : Location := ⟨"L2", some "11291", some "11111", none, []⟩

theorem c6_undetermined_override_witness :
    (baseRow [] [("11111", some "Cuba")] c6loc1 emptyAddrFields true).country =
      some "undetermined" ∧
    (baseRow [] [("11111", some "Cuba")] c6loc2 emptyAddrFields true).country =
      some "Cuba" := by
  constructor
  · exact (c6_undetermined_override [] [("11111", some "Cuba")] c6loc1 emptyAddrFields true
      rfl).1 rfl
  · exact ((c6_undetermined_override [] [("11111", some "Cuba")] c6loc2 emptyAddrFields true
      rfl).2 (by decide)).trans (by decide)

/-! ## Claim C7: the Reference Table Loader on missing subtrees -/

/-- The id-to-text pair of one reference entry. -/
def entryPair (e : RefEntry) : String × PyStr := (e.id, e.text)

/-- A document with no value-list subtrees at all. -/
def emptyRoot : Root := ⟨none, none, none, none, none, none, none, [], [], [], []⟩

/-- Claim C7, counterexample: on a document with no CountryValues subtree
the loader does not return an empty mapping; it raises (the source calls
findall on the None returned by find), refuting the claim as stated. -/
theorem c7_missing_subtree_fails : get_mappings emptyRoot = .error () := rfl

/-- Claim C7 (corrected): a reference domain whose value-list subtree is
present but has no entries yields an empty mapping, and more generally
each present subtree yields exactly its id-to-text pairs; but a document
lacking any of the seven subtrees makes the loader fail rather than
return an empty mapping. -/
theorem c7_mappings_contract (root : Root) (l1 l2 l3 l4 l5 l6 l7 : List RefEntry) :
    (root.countryValues = some l1 → root.idRegDocTypeValues = some l2 →
     root.listValues = some l3 → root.sanctionsTypeValues = some l4 →
     root.featureTypeValues = some l5 → root.reliabilityValues = some l6 →
     root.detailReferenceValues = some l7 →
      get_mappings root = .ok ⟨l1.map entryPair, l2.map entryPair, l3.map entryPair,
        l4.map entryPair, l5.map entryPair, l6.map entryPair, l7.map entryPair⟩) ∧
    ((root.countryValues = none ∨ root.idRegDocTypeValues = none ∨
      root.listValues = none ∨ root.sanctionsTypeValues = none ∨
      root.featureTypeValues = none ∨ root.reliabilityValues = none ∨
      root.detailReferenceValues = none) →
      get_mappings root = .error ()) := by
  constructor
  · intro h1 h2 h3 h4 h5 h6 h7
    simp [get_mappings, collectVals, h1, h2, h3, h4, h5, h6, h7, entryPair]
  · intro h
    rcases h with h | h | h | h | h | h | h <;>
      (cases hc : root.countryValues <;> cases hd : root.idRegDocTypeValues <;>
       cases hl : root.listValues <;> cases hs : root.sanctionsTypeValues <;>
       cases hf : root.featureTypeValues <;> cases hr : root.reliabilityValues <;>
       cases hdr : root.detailReferenceValues <;>
       simp_all [get_mappings, collectVals])

/-- A document whose seven value-list subtrees are present, the first with
one entry and the rest empty. -/
def fullRoot7 : Root :=
  ⟨some [⟨"1", some "France"⟩], some [], some [], some [], some [], some [], some [],
    [], [], [], []⟩

theorem c7_mappings_contract_witness :
    get_mappings fullRoot7 =
      .ok ⟨[("1", some "France")], [], [], [], [], [], []⟩ ∧
    get_mappings emptyRoot = .error () := by
  constructor
  · exact (c7_mappings_contract fullRoot7 [⟨"1", some "France"⟩] [] [] [] [] [] []).1
      rfl rfl rfl rfl rfl rfl rfl
  · exact (c7_mappings_contract emptyRoot [] [] [] [] [] [] []).2 (Or.inl rfl)

/-! ## Claim C9: null cells from present-but-empty elements -/

/-- A SanctionsEntry whose one measure has a Comment element that is
present but empty, so its text is None. -/
def c9entry : SanctionsEntry := ⟨"36", "", [⟨"", some none⟩]⟩

/-- A document containing only that sanctions entry. -/
def c9root : Root := ⟨none, none, none, none, none, none, none, [], [], [], [c9entry]⟩

/-- Claim C9 (code_bug): evaluating the sanctions extractor on an entry
whose Comment element is present but empty emits a row whose
SanctionsProgramID cell is None (a null cell), contradicting the claim
that every cell of every emitted row is a string.  The same pattern
(writing element text without a None guard) affects the TEXT-type feature
detail value and the feature comment. -/
theorem c9_empty_comment_null_cell :
    sanctionsEntriesParser c9root [] [] =
      [[some "36", some "Unknown List", some "Unknown Type", none]] ∧
    none ∈ [some "36", some "Unknown List", some "Unknown Type", (none : PyStr)] := by
  constructor
  · rfl
  · simp

/-! ## Claim C2: Latin rows and script-variant rows per Location -/

theorem locationRows_id (im : Dict String) (cm : Dict PyStr) (loc : Location)
    (isFirst : Bool) :
    ∀ r ∈ locationRows im cm loc isFirst,
      r.id = loc.id ∧ r.fixedRef = locFixedRef im loc := by
  intro r hr
  simp only [locationRows] at hr
  rcases List.mem_cons.mp hr with rfl | hr2
  · exact ⟨rfl, rfl⟩
  · obtain ⟨p, _, hpe⟩ := List.mem_filterMap.mp hr2
    by_cases ht : anyTruthy p.2 = true
    · rw [if_pos ht] at hpe
      injection hpe with hpe
      subst hpe
      exact ⟨rfl, rfl⟩
    · rw [if_neg ht] at hpe
      cases hpe

/-- The script buckets only hold truthy fields for script names that some
already-processed LocationPartValue carried as a truthy comment. -/
def BucketInv (parts : List LocationPart) (nd : ScriptBuckets) : Prop :=
  ∀ k flds, (k, flds) ∈ nd → anyTruthy flds = true →
    k ≠ "" ∧ ∃ part ∈ parts, ∃ pv ∈ part.values, textOrEmpty pv.comment = some k

theorem bucketSet_mem {nd : ScriptBuckets} {k : String} {ptid : String} {v : PyStr}
    {k2 : String} {flds2 : AddrFields} (h : (k2, flds2) ∈ bucketSet nd k ptid v) :
    k2 = k ∨ (k2, flds2) ∈ nd := by
  rw [bucketSet] at h
  obtain ⟨p, hp, hpe⟩ := List.mem_map.mp h
  by_cases hk : p.1 == k
  · rw [if_pos hk] at hpe
    have h1 : p.1 = k2 := congrArg Prod.fst hpe
    exact Or.inl (h1 ▸ (beq_iff_eq.mp hk))
  · rw [if_neg hk] at hpe
    subst hpe
    rw [bucketEnsure] at hp
    by_cases hh : bucketHas nd k
    · rw [if_pos hh] at hp
      exact Or.inr hp
    · rw [if_neg hh] at hp
      rcases List.mem_append.mp hp with hp2 | hp2
      · exact Or.inr hp2
      · exfalso
        have h4 : k2 = k := congrArg Prod.fst (List.mem_singleton.mp hp2)
        exact absurd (beq_iff_eq.mpr h4) hk

theorem processPV_inv (parts : List LocationPart) (part : LocationPart)
    (hpart : part ∈ parts) (pv : LocPartValue) (hpv : pv ∈ part.values)
    (st : AddrFields × ScriptBuckets) (hst : BucketInv parts st.2) :
    BucketInv parts (processPV part.locPartTypeId pv st).2 := by
  rw [processPV]
  cases hc : textOrEmpty pv.comment with
  | none => exact hst
  | some c =>
    by_cases hce : c = ""
    · simpa [hce] using hst
    · have hb : (c == "") = false := beq_eq_false_iff_ne.mpr hce
      simp only [hb, Bool.false_eq_true, if_false]
      intro k2 flds2 hmem ht
      rcases bucketSet_mem hmem with rfl | hold
      · exact ⟨hce, part, hpart, pv, hpv, hc⟩
      · exact hst k2 flds2 hold ht

theorem processPart_inv (parts : List LocationPart) (part : LocationPart)
    (hpart : part ∈ parts) (st : AddrFields × ScriptBuckets)
    (hst : BucketInv parts st.2) : BucketInv parts (processPart st part).2 := by
  rw [processPart]
  suffices h : ∀ (pvs : List LocPartValue), (∀ pv ∈ pvs, pv ∈ part.values) →
      ∀ st : AddrFields × ScriptBuckets, BucketInv parts st.2 →
      BucketInv parts
        ((pvs.foldl (fun st pv => processPV part.locPartTypeId pv st) st)).2 by
    exact h part.values (fun _ hx => hx) st hst
  intro pvs
  induction pvs with
  | nil => intro _ st2 hst2; exact hst2
  | cons pv pvs ih =>
    intro hsub st2 hst2
    exact ih (fun x hx => hsub x (List.mem_cons_of_mem pv hx)) _
      (processPV_inv parts part hpart pv (hsub pv (List.mem_cons_self pv pvs)) st2 hst2)

theorem processParts_inv (parts : List LocationPart) :
    BucketInv parts (processParts parts).2 := by
  rw [processParts]
  suffices h : ∀ (ps : List LocationPart), (∀ p ∈ ps, p ∈ parts) →
      ∀ st : AddrFields × ScriptBuckets, BucketInv parts st.2 →
      BucketInv parts ((ps.foldl processPart st)).2 by
    apply h parts (fun _ hx => hx) (emptyAddrFields, initBuckets)
    intro k flds hm ht
    have hm2 : (k, flds) ∈ initBuckets := hm
    have hf : flds = emptyAddrFields := by
      simp only [initBuckets, List.mem_cons, List.not_mem_nil, or_false,
        Prod.mk.injEq] at hm2
      rcases hm2 with ⟨_, h5⟩ | ⟨_, h5⟩ | ⟨_, h5⟩ | ⟨_, h5⟩ | ⟨_, h5⟩ <;> exact h5
    rw [hf] at ht
    exact absurd ht (by decide)
  intro ps
  induction ps with
  | nil => intro _ st2 hst2; exact hst2
  | cons p ps ih =>
    intro hsub st2 hst2
    exact ih (fun x hx => hsub x (List.mem_cons_of_mem p hx)) _
      (processPart_inv parts p (hsub p (List.mem_cons_self p ps)) st2 hst2)

theorem addrLoop_eq_flatMap (im : Dict String) (cm : Dict PyStr) :
    ∀ (locs : List Location) (seen : List String),
      (locs.map Location.id).Nodup → (∀ loc ∈ locs, loc.id ∉ seen) →
      addrLoop im cm locs seen = locs.flatMap (fun loc => locationRows im cm loc true) := by
  intro locs
  induction locs with
  | nil => intro seen _ _; rfl
  | cons loc rest ih =>
    intro seen hnd hseen
    have h1 : loc.id ∉ seen := hseen loc (List.mem_cons_self loc rest)
    rw [addrLoop, if_neg h1, List.flatMap_cons]
    congr 1
    apply ih (loc.id :: seen) (List.nodup_cons.mp hnd).2
    intro l2 hl2 hmem
    rcases List.mem_cons.mp hmem with heq | hm2
    · exact (List.nodup_cons.mp hnd).1 (heq ▸ List.mem_map_of_mem Location.id hl2)
    · exact hseen l2 (List.mem_cons_of_mem loc hl2) hm2

theorem filter_locationRows (im : Dict String) (cm : Dict PyStr) :
    ∀ (locs : List Location) (loc : Location),
      (locs.map Location.id).Nodup → loc ∈ locs →
      (locs.flatMap (fun x => locationRows im cm x true)).filter
        (fun r => r.id == loc.id) = locationRows im cm loc true := by
  intro locs
  induction locs with
  | nil => intro loc _ h; cases h
  | cons x rest ih =>
    intro loc hnd hmem
    rw [List.flatMap_cons, List.filter_append]
    rcases List.mem_cons.mp hmem with rfl | hm
    · have hall : (locationRows im cm loc true).filter (fun r => r.id == loc.id) =
          locationRows im cm loc true := by
        apply List.filter_eq_self.mpr
        intro r hr
        simp [(locationRows_id im cm loc true r hr).1]
      have hrest : (rest.flatMap (fun x => locationRows im cm x true)).filter
          (fun r => r.id == loc.id) = [] := by
        apply List.filter_eq_nil_iff.mpr
        intro r hr
        obtain ⟨l2, hl2, hrl⟩ := List.mem_flatMap.mp hr
        have hid : r.id = l2.id := (locationRows_id im cm l2 true r hrl).1
        have hne : l2.id ≠ loc.id := by
          intro heq
          exact (List.nodup_cons.mp hnd).1 (heq ▸ List.mem_map_of_mem Location.id hl2)
        simp [hid, hne]
      rw [hall, hrest, List.append_nil]
    · have hxne : x.id ≠ loc.id := by
        intro heq
        exact (List.nodup_cons.mp hnd).1 (heq ▸ List.mem_map_of_mem Location.id hm)
      have hx : (locationRows im cm x true).filter (fun r => r.id == loc.id) = [] := by
        apply List.filter_eq_nil_iff.mpr
        intro r hr
        have hid := (locationRows_id im cm x true r hr).1
        simp [hid, hxne]
      rw [hx, List.nil_append]
      exact ih loc (List.nodup_cons.mp hnd).2 hm

/-- A Location with one part value whose comment text is the script name
Latin, so the Latin-named script bucket is emitted as a second row. -/
def c2loc : Location :=
  ⟨"L1", none, none, none, [⟨"1454", [⟨some (some "Beijing"), some (some "Latin")⟩]⟩]⟩

/-- A document containing only `c2loc`. -/
def c2root : Root := ⟨none, none, none, none, none, none, none, [], [], [c2loc], []⟩

/-- Claim C2, counterexample: a LocationPartValue whose comment is the
literal string Latin creates a script bucket named Latin, and its row is
emitted with Script Type Latin in addition to the base row, so the rows
of this Location carry two Script Type Latin entries, not exactly one. -/
theorem c2_two_latin_rows :
    ((addressParser c2root []).filter (fun r => r.id == "L1")).countP
        (fun r => r.scriptType == "Latin") = 2 ∧
    ((addressParser c2root []).filter (fun r => r.id == "L1")).countP
        (fun r => r.scriptType == "Latin") ≠ 1 := by
  exact ⟨by decide, by decide⟩

/-- Claim C2 (corrected): provided no two Locations share an identifier
and no part value carries the literal comment Latin, the rows emitted for
each Location identifier start with exactly one Script Type Latin row
(the base row, first emitted), and every further row for that identifier
carries a non-empty, non-Latin script name taken verbatim from the
comment of one of that Location's part values, with the same Location
and Party identifier cells as the base row.  Without these provisos the
claim fails: a duplicated identifier leaves a later base row tagged with
the empty script, and a comment equal to Latin yields a second Latin
row. -/
theorem c2_latin_uniqueness (root : Root) (cm : Dict PyStr)
    (h1 : (root.locations.map Location.id).Nodup)
    (h2 : ∀ loc ∈ root.locations, ∀ part ∈ loc.parts, ∀ pv ∈ part.values,
      textOrEmpty pv.comment ≠ some "Latin") :
    ∀ loc ∈ root.locations,
      ∃ b rest,
        (addressParser root cm).filter (fun r => r.id == loc.id) = b :: rest ∧
        b.scriptType = "Latin" ∧ b.id = loc.id ∧
        ∀ r ∈ rest, r.scriptType ≠ "Latin" ∧ r.scriptType ≠ "" ∧
          r.id = loc.id ∧ r.fixedRef = b.fixedRef ∧
          ∃ part ∈ loc.parts, ∃ pv ∈ part.values,
            textOrEmpty pv.comment = some r.scriptType := by
  intro loc hloc
  rw [addressParser,
    addrLoop_eq_flatMap (buildIdentityMap root.distinctParties) cm root.locations []
      h1 (by simp),
    filter_locationRows (buildIdentityMap root.distinctParties) cm root.locations loc
      h1 hloc]
  refine ⟨baseRow (buildIdentityMap root.distinctParties) cm loc
      (processParts loc.parts).1 true,
    bucketRows (baseRow (buildIdentityMap root.distinctParties) cm loc
      (processParts loc.parts).1 true) (processParts loc.parts).2, rfl, rfl, rfl, ?_⟩
  intro r hr
  obtain ⟨p, hp, hpe⟩ := List.mem_filterMap.mp hr
  by_cases ht : anyTruthy p.2 = true
  · rw [if_pos ht] at hpe
    injection hpe with hpe
    subst hpe
    obtain ⟨k, flds⟩ := p
    obtain ⟨hk0, part, hpart, pv, hpv, hcom⟩ := processParts_inv loc.parts k flds hp ht
    refine ⟨?_, hk0, rfl, rfl, part, hpart, pv, hpv, hcom⟩
    intro heq
    exact h2 loc hloc part hpart pv hpv (heq ▸ hcom)
  · rw [if_neg ht] at hpe
    cases hpe

/-- A Location with a Latin city and a Cyrillic script variant. -/
def w2loc : Location :=
  ⟨"L9", none, none, none,
    [⟨"1454", [⟨some (some "Moscow"), none⟩, ⟨some (some "Moskva"), some (some "Cyrillic")⟩]⟩]⟩

/-- A document containing only `w2loc`. -/
def w2root : Root := ⟨none, none, none, none, none, none, none, [], [], [w2loc], []⟩

/-- The base Latin row emitted for `w2loc`. -/
def w2rowLatin : AddressRow :=
  ⟨"L9", "", "", some "", some "", some "", some "", some "", some "", some "",
    some "Moscow", some "", some "", "Latin"⟩

/-- The Cyrillic script-variant row emitted for `w2loc`. -/
def w2rowCyr : AddressRow :=
  ⟨"L9", "", "", some "", some "", some "", some "", some "", some "", some "",
    some "Moskva", some "", some "", "Cyrillic"⟩

theorem c2_latin_uniqueness_witness :
    (addressParser w2root []).filter (fun r => r.id == "L9") = [w2rowLatin, w2rowCyr] ∧
    w2rowLatin.scriptType = "Latin" ∧
    w2rowCyr.scriptType ≠ "Latin" ∧ w2rowCyr.scriptType ≠ "" := by
  have hconc : (addressParser w2root []).filter (fun r => r.id == "L9") =
      [w2rowLatin, w2rowCyr] := by decide
  obtain ⟨b, rest, heq, hlat, _, hrest⟩ :=
    c2_latin_uniqueness w2root [] (by decide) (by decide) w2loc (by decide)
  have h3 : [w2rowLatin, w2rowCyr] = b :: rest := hconc.symm.trans heq
  injection h3 with hb hrest2
  have hmem : w2rowCyr ∈ rest := hrest2 ▸ List.mem_singleton_self w2rowCyr
  obtain ⟨hnl, hne, _, _, _⟩ := hrest w2rowCyr hmem
  exact ⟨hconc, by rw [hb]; exact hlat, hnl, hne⟩

/-! ## Claim C4: the name rendering priority -/

/-- Claim C4 (confirmed): format_name renders the rendered dictionary
through the stated priority chain: last and first both present; else last
alone; else patronymic, matronymic and first all present; else nickname;
else entity name; else aircraft name; else vessel name; else the empty
string.  Presence is Python truthiness, that is non-emptiness. -/
theorem c4_name_priority (npt : Dict String) (parts : List NamePart) (d : NameDict)
    (hd : buildNameDict npt parts emptyNameDict = .ok d) :
    format_name npt parts = .ok (renderName d) ∧
    (d.lastName ≠ "" → d.firstName ≠ "" →
      renderName d = pyStripWs (d.lastName ++ ", " ++ d.firstName ++ " " ++
        d.middleName ++ " " ++ d.maidenName)) ∧
    (d.lastName ≠ "" → d.firstName = "" → renderName d = d.lastName) ∧
    (d.lastName = "" → d.patronymic ≠ "" → d.matronymic ≠ "" → d.firstName ≠ "" →
      renderName d = pyStripWs (d.patronymic ++ " " ++ d.matronymic ++ ", " ++
        d.firstName ++ " " ++ d.middleName ++ " " ++ d.maidenName)) ∧
    (d.lastName = "" → (d.patronymic = "" ∨ d.matronymic = "" ∨ d.firstName = "") →
      d.nickname ≠ "" → renderName d = d.nickname) ∧
    (d.lastName = "" → (d.patronymic = "" ∨ d.matronymic = "" ∨ d.firstName = "") →
      d.nickname = "" → d.entityName ≠ "" → renderName d = d.entityName) ∧
    (d.lastName = "" → (d.patronymic = "" ∨ d.matronymic = "" ∨ d.firstName = "") →
      d.nickname = "" → d.entityName = "" → d.aircraftName ≠ "" →
      renderName d = d.aircraftName) ∧
    (d.lastName = "" → (d.patronymic = "" ∨ d.matronymic = "" ∨ d.firstName = "") →
      d.nickname = "" → d.entityName = "" → d.aircraftName = "" → d.vesselName ≠ "" →
      renderName d = d.vesselName) ∧
    (d.lastName = "" → (d.patronymic = "" ∨ d.matronymic = "" ∨ d.firstName = "") →
      d.nickname = "" → d.entityName = "" → d.aircraftName = "" → d.vesselName = "" →
      renderName d = "") := by
  refine ⟨by simp [format_name, hd], ?_, ?_, ?_, ?_, ?_, ?_, ?_, ?_⟩
  · intro h1 h2
    simp [renderName, h1, h2]
  · intro h1 h2
    simp [renderName, h1, h2]
  · intro h1 h2 h3 h4
    simp [renderName, h1, h2, h3, h4]
  · intro h1 h2 h3
    rcases h2 with h2 | h2 | h2 <;> simp [renderName, h1, h2, h3]
  · intro h1 h2 h3 h4
    rcases h2 with h2 | h2 | h2 <;> simp [renderName, h1, h2, h3, h4]
  · intro h1 h2 h3 h4 h5
    rcases h2 with h2 | h2 | h2 <;> simp [renderName, h1, h2, h3, h4, h5]
  · intro h1 h2 h3 h4 h5 h6
    rcases h2 with h2 | h2 | h2 <;> simp [renderName, h1, h2, h3, h4, h5, h6]
  · intro h1 h2 h3 h4 h5 h6
    rcases h2 with h2 | h2 | h2 <;> simp [renderName, h1, h2, h3, h4, h5, h6]

/-- The name-part-group map used by the C4 witness. -/
def c4npt : Dict String := [("7", "1520"), ("8", "1521"), ("9", "1525")]

/-- Name parts carrying last name Smith and first name John. -/
def c4partsSmith : List NamePart :=
  [⟨"7", some "Smith", "215", "false"⟩, ⟨"8", some "John", "215", "false"⟩]

/-- The dictionary built from `c4partsSmith`. -/
def c4dSmith : NameDict :=
  ⟨pyStripQuotes "Smith", pyStripQuotes "John", "", "", "", "", "", "", "", ""⟩

/-- A name part carrying only the entity name Acme Corp. -/
def c4partsAcme : List NamePart := [⟨"9", some "Acme Corp", "215", "false"⟩]

/-- The dictionary built from `c4partsAcme`. -/
def c4dAcme : NameDict := ⟨"", "", "", "", "", "", "", pyStripQuotes "Acme Corp", "", ""⟩

theorem c4_name_priority_witness :
    format_name c4npt c4partsSmith = .ok "Smith, John" ∧
    format_name c4npt c4partsAcme = .ok "Acme Corp" ∧
    format_name c4npt [] = .ok "" := by
  refine ⟨?_, ?_, ?_⟩
  · have h := c4_name_priority c4npt c4partsSmith c4dSmith rfl
    exact h.1.trans (congrArg Except.ok
      ((h.2.1 (by decide) (by decide)).trans (by decide)))
  · have h := c4_name_priority c4npt c4partsAcme c4dAcme rfl
    exact h.1.trans (congrArg Except.ok
      ((h.2.2.2.2.2.1 rfl (Or.inl rfl) rfl (by decide)).trans (by decide)))
  · have h := c4_name_priority c4npt [] emptyNameDict rfl
    exact h.1.trans (congrArg Except.ok
      (h.2.2.2.2.2.2.2.2 rfl (Or.inl rfl) rfl rfl rfl rfl))

/-! ## Claim C5: deduplication of NAME rows -/

theorem dedupFirstAux_spec {α : Type} [DecidableEq α] :
    ∀ (l seen : List α),
      (dedupFirstAux seen l).Nodup ∧ ∀ a ∈ dedupFirstAux seen l, a ∉ seen := by
  intro l
  induction l with
  | nil => intro seen; simp [dedupFirstAux]
  | cons a l ih =>
    intro seen
    by_cases h : a ∈ seen
    · simpa [dedupFirstAux, h] using ih seen
    · have ih2 := ih (a :: seen)
      rw [show dedupFirstAux seen (a :: l) = a :: dedupFirstAux (a :: seen) l by
        simp [dedupFirstAux, h]]
      constructor
      · refine List.nodup_cons.mpr ⟨?_, ih2.1⟩
        intro hmem
        exact (ih2.2 a hmem) (List.mem_cons_self a seen)
      · intro x hx
        rcases List.mem_cons.mp hx with rfl | hx2
        · exact h
        · intro hxs
          exact (ih2.2 x hx2) (List.mem_cons_of_mem a hxs)

theorem nameLoop_ok (sv atv : Dict PyStr) (npt : Dict String) :
    ∀ (inps : List RecordInput) (cands : List NameRecord),
      mkRecords sv atv npt inps = .ok cands →
      ∀ (seen rows : List NameRecord),
        nameLoop sv atv npt inps seen rows = .ok (rows ++ dedupFirstAux seen cands) := by
  intro inps
  induction inps with
  | nil =>
    intro cands h seen rows
    simp only [mkRecords, Except.ok.injEq] at h
    subst h
    simp [nameLoop, dedupFirstAux]
  | cons i is ih =>
    intro cands h seen rows
    cases hr : mkRecord sv atv npt i with
    | error e => simp [mkRecords, hr] at h
    | ok r =>
      cases hrs : mkRecords sv atv npt is with
      | error e => simp [mkRecords, hr, hrs] at h
      | ok rs =>
        simp only [mkRecords, hr, hrs, Except.ok.injEq] at h
        subst h
        by_cases hm : r ∈ seen
        · simp [nameLoop, hr, hm, dedupFirstAux, ih rs hrs seen rows]
        · simp [nameLoop, hr, hm, dedupFirstAux, ih rs hrs (r :: seen) (rows ++ [r])]

theorem nameLoop_error (sv atv : Dict PyStr) (npt : Dict String) :
    ∀ (inps : List RecordInput) (e : Unit),
      mkRecords sv atv npt inps = .error e →
      ∀ (seen rows : List NameRecord),
        nameLoop sv atv npt inps seen rows = .error e := by
  intro inps
  induction inps with
  | nil => intro e h seen rows; simp [mkRecords] at h
  | cons i is ih =>
    intro e h seen rows
    cases hr : mkRecord sv atv npt i with
    | error e2 =>
      simp only [mkRecords, hr] at h
      simp [nameLoop, hr, h]
    | ok r =>
      cases hrs : mkRecords sv atv npt is with
      | error e2 =>
        cases e
        cases e2
        by_cases hm : r ∈ seen <;> simp [nameLoop, hr, hm, ih () hrs]
      | ok rs => simp [mkRecords, hr, hrs] at h

/-- Claim C5 (confirmed): when the NAME extractor succeeds, its emitted
rows contain no two records identical across all nine columns, and they
are exactly the candidate records with every repetition of an earlier
record removed, in first-seen order. -/
theorem c5_name_dedup (root : Root) (sv pstv atv : Dict PyStr) (npt : Dict String)
    (rows : List NameRecord) (h : nameParser root sv pstv atv npt = .ok rows) :
    rows.Nodup ∧
    ∃ cands, mkRecords sv atv npt (docnameTuples root.distinctParties) = .ok cands ∧
      rows = dedupFirst cands := by
  cases hc : mkRecords sv atv npt (docnameTuples root.distinctParties) with
  | error e =>
    rw [nameParser, nameLoop_error sv atv npt _ e hc [] []] at h
    exact absurd h (by simp)
  | ok cands =>
    rw [nameParser, nameLoop_ok sv atv npt _ cands hc [] []] at h
    simp only [List.nil_append, Except.ok.injEq] at h
    subst h
    exact ⟨(dedupFirstAux_spec cands []).1, cands, rfl, rfl⟩

/-- An alias with two identical DocumentedNames, so the two candidate
records coincide. -/
def w5alias : Alias := ⟨"1403", "false", "true", [⟨"5001", []⟩, ⟨"5001", []⟩]⟩

/-- A party carrying `w5alias`. -/
def w5party : Party := ⟨"100", [⟨"4", [⟨"7", "100", [w5alias]⟩]⟩], []⟩

/-- A document containing only `w5party`. -/
def w5root : Root := ⟨none, none, none, none, none, none, none, [w5party], [], [], []⟩

/-- The single deduplicated row the name extractor emits for `w5root`. -/
def w5rows : List NameRecord :=
  [⟨"100", "5001", "Individual", "true", some "Unknown", "false", "false", some "Unknown", ""⟩]

theorem c5_name_dedup_witness :
    nameParser w5root [] [] [] [] = .ok w5rows ∧ w5rows.Nodup := by
  refine ⟨rfl, ?_⟩
  exact (c5_name_dedup w5root [] [] [] [] w5rows rfl).1

/-! ## Claim C8: identity-document owner resolution -/

/-- A party whose Identity element carries a FixedRef attribute different
from the FixedRef of the containing DistinctParty. -/
def c8party : Party := ⟨"100", [⟨"4", [⟨"5", "999", []⟩]⟩], []⟩

/-- An identity document referencing that Identity. -/
def c8doc : IDRegDocument := ⟨"5", "1571", none, "", none, []⟩

/-- A document containing `c8party` and `c8doc`. -/
def c8root : Root := ⟨none, none, none, none, none, none, none, [c8party], [c8doc], [], []⟩

/-- Claim C8, counterexample: the source reads the FixedRef attribute of
the matched Identity element, not of its owning DistinctParty.  Here the
only party has FixedRef 100, yet the emitted row carries 999, refuting
the claim that the row carries the owning Party FixedRef. -/
theorem c8_fixedref_mismatch :
    (idParser c8root [] []).map IdRow.fixedRef = ["999"] ∧
    c8root.distinctParties.map Party.fixedRef = ["100"] := ⟨rfl, rfl⟩

theorem length_filterMap_matchOpt {α β γ : Type} (g : α → Option β) (f : α → β → γ) :
    ∀ l : List α,
      (l.filterMap (fun a => (g a).map (f a))).length = l.countP (fun a => (g a).isSome) := by
  intro l
  induction l with
  | nil => rfl
  | cons a l ih => cases hg : g a <;> simp [List.filterMap_cons, List.countP_cons, hg, ih]

/-- Claim C8 (corrected): a document whose Identity is not found is
skipped and every found one yields exactly one row — the row count equals
the number of resolvable documents — and each emitted row carries the
FixedRef attribute of the matched Identity element, which is the FixedRef
of the owning Party whenever every Identity attribute agrees with its
Party (as in well-formed documents), but not in general. -/
theorem c8_id_resolution (root : Root) (cm dtm : Dict PyStr) :
    (idParser root cm dtm).length =
      root.idRegDocuments.countP
        (fun d => (findIdentity root.distinctParties d.identityId).isSome) ∧
    ∀ r ∈ idParser root cm dtm,
      ∃ d ∈ root.idRegDocuments, ∃ ident,
        findIdentity root.distinctParties d.identityId = some ident ∧
        r = idRow cm dtm ident d ∧ r.fixedRef = ident.fixedRef ∧
        ((∀ p ∈ root.distinctParties, ∀ pr ∈ p.profiles, ∀ i ∈ pr.identities,
            i.fixedRef = p.fixedRef) →
          ∃ p ∈ root.distinctParties,
            (∃ pr ∈ p.profiles, ident ∈ pr.identities) ∧ r.fixedRef = p.fixedRef) := by
  have hform : idParser root cm dtm =
      root.idRegDocuments.filterMap (fun d =>
        (findIdentity root.distinctParties d.identityId).map
          (fun ident => idRow cm dtm ident d)) := by
    rw [idParser]
    congr 1
    funext d
    cases hf : findIdentity root.distinctParties d.identityId <;> simp [hf]
  constructor
  · rw [hform]
    exact length_filterMap_matchOpt _ _ root.idRegDocuments
  · intro r hr
    rw [hform] at hr
    obtain ⟨d, hd, hmap⟩ := List.mem_filterMap.mp hr
    cases hf : findIdentity root.distinctParties d.identityId with
    | none => rw [hf] at hmap; simp at hmap
    | some ident =>
      rw [hf] at hmap
      simp only [Option.map_some', Option.some.injEq] at hmap
      refine ⟨d, hd, ident, hf, hmap.symm, by rw [← hmap]; rfl, ?_⟩
      intro hcons
      have hmem : ident ∈ (root.distinctParties.flatMap Party.profiles).flatMap
          Profile.identities := List.mem_of_find?_eq_some hf
      obtain ⟨pr, hpr, hi⟩ := List.mem_flatMap.mp hmem
      obtain ⟨p, hp, hprp⟩ := List.mem_flatMap.mp hpr
      refine ⟨p, hp, ⟨pr, hprp, hi⟩, ?_⟩
      rw [← hmap]
      exact (hcons p hp pr hprp ident hi).symm ▸ rfl

/-- A party whose Identity FixedRef attribute agrees with the Party. -/
def w8party : Party := ⟨"100", [⟨"4", [⟨"5", "100", []⟩]⟩], []⟩

/-- The Identity element of `w8party`. -/
def w8ident : Identity := ⟨"5", "100", []⟩

/-- An identity document resolvable against `w8party`. -/
def w8doc1 : IDRegDocument := ⟨"5", "1571", none, "", none, []⟩

/-- A document containing `w8party` and `w8doc1`. -/
def w8root : Root := ⟨none, none, none, none, none, none, none, [w8party], [w8doc1], [], []⟩

theorem c8_id_resolution_witness :
    (idParser w8root [] []).length = 1 ∧
    (idRow ([] : Dict PyStr) [] w8ident w8doc1).fixedRef = "100" := by
  have h := c8_id_resolution w8root [] []
  constructor
  · exact h.1.trans (by rfl)
  · have hmem : idRow ([] : Dict PyStr) [] w8ident w8doc1 ∈ idParser w8root [] [] := by
      rw [show idParser w8root [] [] = [idRow ([] : Dict PyStr) [] w8ident w8doc1] from rfl]
      exact List.mem_singleton.mpr rfl
    obtain ⟨d, hd, ident, hfind, hr, hfx, hcons⟩ := h.2 _ hmem
    have hd1 : d = w8doc1 := by simpa [w8root] using hd
    subst hd1
    have hi : ident = w8ident := by
      rw [show findIdentity w8root.distinctParties w8doc1.identityId = some w8ident
        from rfl] at hfind
      injection hfind with h2
      exact h2.symm
    subst hi
    obtain ⟨p, hp, _, hfxp⟩ := hcons (by decide)
    have hp1 : p = w8party := by simpa [w8root] using hp
    exact hfxp.trans (by rw [hp1]; rfl)

/-! ## Claim C10: independence from the party-subtype table -/

/-- Claim C10 (confirmed): the NAME extractor never consults the loaded
party-subtype table — its output is identical under any two party-subtype
mappings — and the Designation column is produced by the hardcoded
dispatch: 1 Vessel, 2 Aircraft, 3 Business, 4 Individual, anything else
Unknown. -/
theorem c10_subtype_independence (root : Root) (sv atv : Dict PyStr) (npt : Dict String)
    (m1 m2 : Dict PyStr) :
    nameParser root sv m1 atv npt = nameParser root sv m2 atv npt ∧
    get_designation "1" = "Vessel" ∧ get_designation "2" = "Aircraft" ∧
    get_designation "3" = "Business" ∧ get_designation "4" = "Individual" ∧
    (∀ c : String, c ≠ "1" → c ≠ "2" → c ≠ "3" → c ≠ "4" →
      get_designation c = "Unknown") ∧
    (∀ (inp : RecordInput) (r : NameRecord), mkRecord sv atv npt inp = .ok r →
      r.designation = get_designation inp.partySubTypeId) := by
  refine ⟨rfl, rfl, rfl, rfl, rfl, ?_, ?_⟩
  · intro c h1 h2 h3 h4
    simp [get_designation, h1, h2, h3, h4]
  · intro inp r h
    cases hf : format_name npt inp.nameParts with
    | error e => simp [mkRecord, hf] at h
    | ok nm =>
      simp only [mkRecord, hf, Except.ok.injEq] at h
      subst h
      rfl

/-- A record input with subtype code 4 and no name parts. -/
def w10inp : RecordInput := ⟨"100", "4", "1403", "false", "true", "5001", []⟩

/-- The record the name extractor builds for `w10inp` with empty tables. -/
def w10rec : NameRecord :=
  ⟨"100", "5001", "Individual", "true", some "Unknown", "false", "false", some "Unknown", ""⟩

theorem c10_subtype_independence_witness :
    get_designation "9" = "Unknown" ∧ w10rec.designation = get_designation "4" := by
  constructor
  · exact (c10_subtype_independence emptyRoot [] [] [] [] []).2.2.2.2.2.1 "9"
      (by decide) (by decide) (by decide) (by decide)
  · exact (c10_subtype_independence emptyRoot [] [] [] [] []).2.2.2.2.2.2 w10inp w10rec rfl

end WLF
